import Mathlib

/-!
# ESP8266_DualGraph: the secrets template `dual_monitor/config.example.h`

The repository's source is one header of object-like macro definitions.  The
embedding keeps the text of the header line by line, reads it the way the C
preprocessor reads `#define NAME "text"` directives, and states the properties
of the resulting table of named string constants.
-/

namespace DualMonitor

/-! ## The source text -/

/-- The eleven lines of `src/dual_monitor/config.example.h`, verbatim. -/
def config_example_h : List String :=
  [ "// ========== SECRETS TEMPLATE ==========",
    "// 이 파일을 config.h로 복사한 후 본인 환경에 맞게 수정하세요",
    "// cp config.example.h config.h",
    "",
    "// WiFi",
    "#define WIFI_SSID \"YOUR_WIFI_NAME\"",
    "#define WIFI_PASS \"YOUR_WIFI_PASSWORD\"",
    "",
    "// OpenWeatherMap (https://openweathermap.org)",
    "#define OWM_API_KEY \"YOUR_API_KEY_HERE\"",
    "#define OWM_CITY \"Seoul\"" ]

/-! ## Reading a line as a preprocessor directive -/

/-- The double quote character that delimits a C string literal. -/
def dquote : Char := Char.ofNat 34

/-- The backslash character that starts an escape inside a C string literal. -/
def backslash : Char := Char.ofNat 92

/-- The hash character that starts a preprocessor directive. -/
def hash : Char := Char.ofNat 35

/-- Horizontal white space between the tokens of a directive. -/
def isBlank (c : Char) : Bool := c == ' ' || c == '\t'

/-- Characters of a C identifier. -/
def isIdentChar (c : Char) : Bool := c.isAlphanum || c == '_'

/-- Skip leading white space. -/
def skipBlanks (cs : List Char) : List Char := cs.dropWhile isBlank

/-- Split off the longest identifier prefix. -/
def spanIdent (cs : List Char) : List Char × List Char :=
  (cs.takeWhile isIdentChar, cs.dropWhile isIdentChar)

/-- A directive line is `#`, a directive word, and the rest of the line; any
other line (blank, comment, ordinary code) carries no directive. -/
def directive (line : String) : Option (String × List Char) :=
  match skipBlanks line.data with
  | [] => none
  | c :: rest =>
    if c = hash then
      let p := spanIdent (skipBlanks rest)
      some (String.mk p.1, skipBlanks p.2)
    else none

/-- The characters of a string literal after its opening quote: everything up
to the closing quote, which must end the line up to white space.  A literal
with an escape, or with anything after the closing quote, is not read as a
value; the header has neither. -/
def literalBody : List Char → List Char → Option String
  | [], _ => none
  | c :: cs, acc =>
    if c = dquote then
      (if skipBlanks cs = [] then some (String.mk acc.reverse) else none)
    else if c = backslash then none
    else literalBody cs (c :: acc)

/-- The value of a replacement text that is one string literal. -/
def stringLiteral : List Char → Option String
  | [] => none
  | c :: cs => if c = dquote then literalBody cs [] else none

/-- An object-like macro definition `#define NAME replacement`. -/
def objectMacro (line : String) : Option (String × List Char) :=
  match directive line with
  | none => none
  | some (word, rest) =>
    if word = "define" then
      let p := spanIdent rest
      if p.1 = [] then none else some (String.mk p.1, skipBlanks p.2)
    else none

/-- A line that defines a name as a string literal, as a name and value. -/
def stringDefine (line : String) : Option (String × String) :=
  match objectMacro line with
  | none => none
  | some (name, body) =>
    match stringLiteral body with
    | none => none
    | some v => some (name, v)

/-- The directive lines of a header. -/
def directives (lines : List String) : List (String × List Char) :=
  lines.filterMap directive

/-- The table of string constants a header defines, in file order. -/
def table (lines : List String) : List (String × String) :=
  lines.filterMap stringDefine

/-- The configuration table of the template. -/
def defines : List (String × String) := table config_example_h

/-- Name resolution: the value the first definition of the name gives, or
`none` for a name the header does not define. -/
def lookup (name : String) : Option String := defines.lookup name

/-! ## Configurations and their edits -/

/-- Modelled from the spec: the three placeholder texts that testable
property 1 names; the header itself does not mark which values are
placeholders. -/
def placeholders : List String :=
  ["YOUR_WIFI_NAME", "YOUR_WIFI_PASSWORD", "YOUR_API_KEY_HERE"]

/-- Modelled from the spec: an instantiated configuration, the data model's
four independent string values that a user fills in when copying the template
to `config.h`.  The repository contains no code for it. -/
structure Config where
  WIFI_SSID : String
  WIFI_PASS : String
  OWM_API_KEY : String
  OWM_CITY : String
  deriving DecidableEq

/-- Modelled from the spec: the value a filled-in configuration assigns to a
name, `none` for a name outside the four. -/
def Config.value (c : Config) (name : String) : Option String :=
  if name = "WIFI_SSID" then some c.WIFI_SSID
  else if name = "WIFI_PASS" then some c.WIFI_PASS
  else if name = "OWM_API_KEY" then some c.OWM_API_KEY
  else if name = "OWM_CITY" then some c.OWM_CITY
  else none

/-- Modelled from the spec: substitution of filled-in values into a table.
Every entry keeps its name and position; the value of an entry whose name is
one of the four is replaced by the filled-in value.  The repository contains
no code for it (the user edits the copy by hand). -/
def substitute (c : Config) (t : List (String × String)) : List (String × String) :=
  t.map fun e => (e.1, (c.value e.1).getD e.2)

/-- Modelled from the spec: template instantiation, the substitution applied
to the table of `config.example.h`. -/
def instantiate (c : Config) : List (String × String) := substitute c defines

/-- Modelled from the spec: reading the four names back out of a table. -/
def readOut (t : List (String × String)) : Option Config :=
  match t.lookup "WIFI_SSID", t.lookup "WIFI_PASS", t.lookup "OWM_API_KEY",
      t.lookup "OWM_CITY" with
  | some s, some p, some k, some c => some ⟨s, p, k, c⟩
  | _, _, _, _ => none

/-- Modelled from the spec: replacing the value of one name in a table, every
other entry left as it is.  The repository contains no code for it. -/
def setValue (name v : String) (t : List (String × String)) : List (String × String) :=
  t.map fun e => if e.1 = name then (e.1, v) else e

/-! ## The lint check -/

/-- The names a value check flags in a table: those whose value the check
flags, in table order. -/
def flaggedNames (flag : String → Bool) (t : List (String × String)) : List String :=
  (t.filter fun e => flag e.2).map Prod.fst

/-- Modelled from the spec: the value test of the lint check of testable
properties 1 and 4, which flags a value exactly when it is a placeholder text,
so that the empty string is valid.  The repository contains no lint check. -/
def isPlaceholder (v : String) : Bool := placeholders.contains v

/-- Modelled from the spec: the lint check of testable properties 1 and 4
accepts a table when it flags none of its names.  The repository contains no
lint check. -/
def lint (t : List (String × String)) : Bool := (flaggedNames isPlaceholder t).isEmpty

end DualMonitor

namespace DualMonitor

/-! ## Evaluation lemmas -/

theorem defines_eq :
    defines =
      [ ("WIFI_SSID", "YOUR_WIFI_NAME"), ("WIFI_PASS", "YOUR_WIFI_PASSWORD"),
        ("OWM_API_KEY", "YOUR_API_KEY_HERE"), ("OWM_CITY", "Seoul") ] := by
  decide

theorem instantiate_eq (c : Config) :
    instantiate c =
      [ ("WIFI_SSID", c.WIFI_SSID), ("WIFI_PASS", c.WIFI_PASS),
        ("OWM_API_KEY", c.OWM_API_KEY), ("OWM_CITY", c.OWM_CITY) ] := by
  rw [instantiate, defines_eq]
  simp [substitute, Config.value]

theorem isPlaceholder_iff (v : String) : isPlaceholder v = true ↔ v ∈ placeholders := by
  simp [isPlaceholder]

theorem lookup_cases (name : String) :
    lookup name =
      if name = "WIFI_SSID" then some "YOUR_WIFI_NAME"
      else if name = "WIFI_PASS" then some "YOUR_WIFI_PASSWORD"
      else if name = "OWM_API_KEY" then some "YOUR_API_KEY_HERE"
      else if name = "OWM_CITY" then some "Seoul"
      else none := by
  rw [lookup, defines_eq]
  by_cases h1 : name = "WIFI_SSID"
  · subst h1; rfl
  by_cases h2 : name = "WIFI_PASS"
  · subst h2; rfl
  by_cases h3 : name = "OWM_API_KEY"
  · subst h3; rfl
  by_cases h4 : name = "OWM_CITY"
  · subst h4; rfl
  have e1 : (name == "WIFI_SSID") = false := by simpa using h1
  have e2 : (name == "WIFI_PASS") = false := by simpa using h2
  have e3 : (name == "OWM_API_KEY") = false := by simpa using h3
  have e4 : (name == "OWM_CITY") = false := by simpa using h4
  simp [List.lookup, e1, e2, e3, e4, h1, h2, h3, h4]

theorem lookup_eq_some_iff (n v : String) : lookup n = some v ↔ (n, v) ∈ defines := by
  rw [lookup_cases, defines_eq]
  by_cases h1 : n = "WIFI_SSID"
  · subst h1; simp [eq_comm]
  by_cases h2 : n = "WIFI_PASS"
  · subst h2; simp [eq_comm]
  by_cases h3 : n = "OWM_API_KEY"
  · subst h3; simp [eq_comm]
  by_cases h4 : n = "OWM_CITY"
  · subst h4; simp [eq_comm]
  simp [h1, h2, h3, h4]

theorem lookup_cons_ite (a k b : String) (t : List (String × String)) :
    List.lookup a ((k, b) :: t) = if a = k then some b else List.lookup a t := by
  by_cases h : a = k
  · subst h
    simp [List.lookup]
  · have e : (a == k) = false := by simpa using h
    simp [List.lookup, e, h]

theorem setValue_cons (name v k w : String) (t : List (String × String)) :
    setValue name v ((k, w) :: t) =
      (k, if k = name then v else w) :: setValue name v t := by
  by_cases h : k = name <;> simp [setValue, h]

theorem lookup_setValue_of_ne (name other v : String) (h : other ≠ name)
    (t : List (String × String)) :
    (setValue name v t).lookup other = t.lookup other := by
  induction t with
  | nil => rfl
  | cons e t ih =>
    obtain ⟨k, w⟩ := e
    rw [setValue_cons, lookup_cons_ite, lookup_cons_ite, ih]
    by_cases ho : other = k
    · have hk : ¬ k = name := fun hk => h (ho.trans hk)
      simp [ho, hk]
    · simp [ho]

theorem lookup_setValue_self (name v : String) (t : List (String × String)) :
    (setValue name v t).lookup name = (t.lookup name).map fun _ => v := by
  induction t with
  | nil => rfl
  | cons e t ih =>
    obtain ⟨k, w⟩ := e
    rw [setValue_cons, lookup_cons_ite, lookup_cons_ite, ih]
    by_cases hk : name = k
    · simp [hk]
    · simp [hk]

theorem substitute_idem (c : Config) (t : List (String × String)) :
    substitute c (substitute c t) = substitute c t := by
  simp only [substitute, List.map_map]
  apply List.map_congr_left
  intro e _
  simp only [Function.comp]
  cases h : c.value e.1 <;> simp [h]

/-! ## The constant table -/

/-- C1: the header defines exactly the four names WIFI_SSID, WIFI_PASS,
OWM_API_KEY and OWM_CITY, in this order and no others; its only directive
lines are these four definitions, the replacement text of each is one string
literal, and looking the names up yields "YOUR_WIFI_NAME",
"YOUR_WIFI_PASSWORD", "YOUR_API_KEY_HERE" and "Seoul". -/
theorem template_exposes_four_string_constants :
    defines.map Prod.fst = ["WIFI_SSID", "WIFI_PASS", "OWM_API_KEY", "OWM_CITY"] ∧
    (directives config_example_h).length = 4 ∧
    (config_example_h.filterMap objectMacro).map (fun m => (m.1, stringLiteral m.2)) =
      [ ("WIFI_SSID", some "YOUR_WIFI_NAME"), ("WIFI_PASS", some "YOUR_WIFI_PASSWORD"),
        ("OWM_API_KEY", some "YOUR_API_KEY_HERE"), ("OWM_CITY", some "Seoul") ] ∧
    lookup "WIFI_SSID" = some "YOUR_WIFI_NAME" ∧
    lookup "WIFI_PASS" = some "YOUR_WIFI_PASSWORD" ∧
    lookup "OWM_API_KEY" = some "YOUR_API_KEY_HERE" ∧
    lookup "OWM_CITY" = some "Seoul" := by
  decide

/-- C2: name resolution fails exactly for the names that are not one of
WIFI_SSID, WIFI_PASS, OWM_API_KEY, OWM_CITY, and succeeds exactly for these
four; an undefined name is the only way a lookup fails. -/
theorem lookup_fails_iff_undefined (name : String) :
    (lookup name = none ↔
      name ∉ ["WIFI_SSID", "WIFI_PASS", "OWM_API_KEY", "OWM_CITY"]) ∧
    ((lookup name).isSome = true ↔
      name ∈ ["WIFI_SSID", "WIFI_PASS", "OWM_API_KEY", "OWM_CITY"]) ∧
    (lookup "WIFI_SSID").isSome = true ∧ (lookup "WIFI_PASS").isSome = true ∧
    (lookup "OWM_API_KEY").isSome = true ∧ (lookup "OWM_CITY").isSome = true := by
  refine ⟨?_, ?_, by decide, by decide, by decide, by decide⟩
  · rw [lookup_cases]
    by_cases h1 : name = "WIFI_SSID"
    · simp [h1]
    by_cases h2 : name = "WIFI_PASS"
    · simp [h2]
    by_cases h3 : name = "OWM_API_KEY"
    · simp [h3]
    by_cases h4 : name = "OWM_CITY"
    · simp [h4]
    simp [h1, h2, h3, h4]
  · rw [lookup_cases]
    by_cases h1 : name = "WIFI_SSID"
    · simp [h1]
    by_cases h2 : name = "WIFI_PASS"
    · simp [h2]
    by_cases h3 : name = "OWM_API_KEY"
    · simp [h3]
    by_cases h4 : name = "OWM_CITY"
    · simp [h4]
    simp [h1, h2, h3, h4]

/-- C3: every name is defined exactly once.  The names of the macro
definitions of the header are pairwise distinct, so an entry never redefines or
shadows another; a name has at most one value in the table and the lookup
returns exactly that value; and every directive of the header is a `define`,
so the header holds nothing (such as an `undef` or a second definition) that
changes a value. -/
theorem each_name_defined_once :
    ((config_example_h.filterMap objectMacro).map Prod.fst).Nodup ∧
    (defines.map Prod.fst).Nodup ∧
    (∀ n v w, (n, v) ∈ defines → (n, w) ∈ defines → v = w) ∧
    (∀ n v, lookup n = some v ↔ (n, v) ∈ defines) ∧
    (directives config_example_h).map Prod.fst =
      ["define", "define", "define", "define"] ∧
    (directives config_example_h).length = defines.length := by
  refine ⟨by decide, by decide, ?_, ?_, by decide, by decide⟩
  · intro n v w hv hw
    rw [defines_eq] at hv hw
    simp only [List.mem_cons, Prod.mk.injEq, List.mem_singleton, List.mem_nil_iff,
      or_false] at hv hw
    rcases hv with ⟨rfl, rfl⟩ | ⟨rfl, rfl⟩ | ⟨rfl, rfl⟩ | ⟨rfl, rfl⟩ <;>
      simp at hw <;> exact hw.symm
  · exact lookup_eq_some_iff

/-! ## The lint check on instantiated configurations -/

theorem lint_instantiate_iff (c : Config) :
    lint (instantiate c) = true ↔
      c.WIFI_SSID ∉ placeholders ∧ c.WIFI_PASS ∉ placeholders ∧
      c.OWM_API_KEY ∉ placeholders ∧ c.OWM_CITY ∉ placeholders := by
  rw [instantiate_eq]
  simp only [lint, flaggedNames, List.isEmpty_iff, List.map_eq_nil_iff,
    List.filter_eq_nil_iff, List.mem_cons, List.mem_singleton, List.mem_nil_iff,
    or_false, isPlaceholder_iff]
  constructor
  · intro h
    exact ⟨h _ (Or.inl rfl), h _ (Or.inr (Or.inl rfl)),
      h _ (Or.inr (Or.inr (Or.inl rfl))), h _ (Or.inr (Or.inr (Or.inr rfl)))⟩
  · rintro ⟨h1, h2, h3, h4⟩ e (rfl | rfl | rfl | rfl) <;> assumption

/-- C5: the empty string is told apart from the unedited placeholder.  With
the other three values edited (none of them a placeholder text), the lint
check accepts the configuration whose WIFI_PASS is the empty string and
rejects the one that differs only in WIFI_PASS being "YOUR_WIFI_PASSWORD",
which is the value the template gives WIFI_PASS. -/
theorem lint_empty_pass_vs_placeholder (ssid key city : String)
    (hs : ssid ∉ placeholders) (hk : key ∉ placeholders) (hc : city ∉ placeholders) :
    lint (instantiate ⟨ssid, "", key, city⟩) = true ∧
    lint (instantiate ⟨ssid, "YOUR_WIFI_PASSWORD", key, city⟩) = false ∧
    lookup "WIFI_PASS" = some "YOUR_WIFI_PASSWORD" ∧
    isPlaceholder "" = false ∧ isPlaceholder "YOUR_WIFI_PASSWORD" = true := by
  refine ⟨?_, ?_, by decide, by decide, by decide⟩
  · rw [lint_instantiate_iff]
    exact ⟨hs, (by decide : "" ∉ placeholders), hk, hc⟩
  · rw [Bool.eq_false_iff]
    intro hacc
    exact ((lint_instantiate_iff _).mp hacc).2.1
      (by decide : "YOUR_WIFI_PASSWORD" ∈ placeholders)

/-- Witness for C5 at the configuration home / 0123456789abcdef / Seoul. -/
theorem lint_empty_pass_vs_placeholder_witness :
    ("home" ∉ placeholders ∧ "0123456789abcdef" ∉ placeholders ∧
      "Seoul" ∉ placeholders) ∧
    lint (instantiate ⟨"home", "", "0123456789abcdef", "Seoul"⟩) = true ∧
    lint (instantiate ⟨"home", "YOUR_WIFI_PASSWORD", "0123456789abcdef", "Seoul"⟩) = false :=
  have h := lint_empty_pass_vs_placeholder "home" "0123456789abcdef" "Seoul"
    (by decide) (by decide) (by decide)
  ⟨⟨by decide, by decide, by decide⟩, h.1, h.2.1⟩

/-! ## Editing one value, and instantiation round trips -/

theorem lookup_instantiate (c : Config) (name : String) :
    (instantiate c).lookup name = c.value name := by
  rw [instantiate_eq, lookup_cons_ite, lookup_cons_ite, lookup_cons_ite, lookup_cons_ite]
  rfl

/-- C6: the template's OWM_CITY is "Seoul", and in every table replacing the
value of OWM_CITY leaves the lookup of every other name, in particular of
WIFI_SSID, WIFI_PASS and OWM_API_KEY, as it was, while OWM_CITY (when defined)
resolves to the new value; on an instantiated configuration the edit changes
the OWM_CITY field alone, and rewriting the last line of the header to
"Busan" gives the template's table with only that value replaced. -/
theorem setValue_city_changes_city_only (t : List (String × String)) (v : String) :
    lookup "OWM_CITY" = some "Seoul" ∧
    (setValue "OWM_CITY" v t).lookup "WIFI_SSID" = t.lookup "WIFI_SSID" ∧
    (setValue "OWM_CITY" v t).lookup "WIFI_PASS" = t.lookup "WIFI_PASS" ∧
    (setValue "OWM_CITY" v t).lookup "OWM_API_KEY" = t.lookup "OWM_API_KEY" ∧
    (∀ name, name ≠ "OWM_CITY" →
      (setValue "OWM_CITY" v t).lookup name = t.lookup name) ∧
    (setValue "OWM_CITY" v t).lookup "OWM_CITY" = (t.lookup "OWM_CITY").map (fun _ => v) ∧
    (∀ c : Config, setValue "OWM_CITY" v (instantiate c) =
      instantiate ⟨c.WIFI_SSID, c.WIFI_PASS, c.OWM_API_KEY, v⟩) ∧
    table (config_example_h.set 10 "#define OWM_CITY \"Busan\"") =
      setValue "OWM_CITY" "Busan" defines := by
  refine ⟨by decide, ?_, ?_, ?_, ?_, lookup_setValue_self _ _ _, ?_, by decide⟩
  · exact lookup_setValue_of_ne _ _ _ (by decide) t
  · exact lookup_setValue_of_ne _ _ _ (by decide) t
  · exact lookup_setValue_of_ne _ _ _ (by decide) t
  · intro name h
    exact lookup_setValue_of_ne _ _ _ h t
  · intro c
    rw [instantiate_eq, instantiate_eq]
    simp [setValue]

/-- Witness for C6 on the template's table with the city changed to "Busan":
the other three names keep their template values. -/
theorem setValue_city_changes_city_only_witness :
    (setValue "OWM_CITY" "Busan" defines).lookup "WIFI_SSID" = some "YOUR_WIFI_NAME" ∧
    (setValue "OWM_CITY" "Busan" defines).lookup "WIFI_PASS" = some "YOUR_WIFI_PASSWORD" ∧
    (setValue "OWM_CITY" "Busan" defines).lookup "OWM_API_KEY" = some "YOUR_API_KEY_HERE" ∧
    (setValue "OWM_CITY" "Busan" defines).lookup "OWM_CITY" = some "Busan" :=
  have h := setValue_city_changes_city_only defines "Busan"
  ⟨(h.2.2.2.2.1 "WIFI_SSID" (by decide)).trans (by decide),
    (h.2.2.2.2.1 "WIFI_PASS" (by decide)).trans (by decide),
    (h.2.2.2.2.1 "OWM_API_KEY" (by decide)).trans (by decide),
    h.2.2.2.2.2.1.trans (by decide)⟩

/-- C7: template instantiation round-trips.  For every choice of four
filled-in strings, substituting them into the template's table and reading
the four names back out yields exactly these strings; the instantiated table
has the template's names in the template's order and resolves every name to
the value filled in for it; and substituting the same values a second time
changes nothing. -/
theorem instantiate_read_roundtrip (c : Config) :
    readOut (instantiate c) = some c ∧
    (instantiate c).map Prod.fst = defines.map Prod.fst ∧
    (∀ name, (instantiate c).lookup name = c.value name) ∧
    substitute c (instantiate c) = instantiate c ∧
    (∀ t, substitute c (substitute c t) = substitute c t) := by
  refine ⟨?_, ?_, lookup_instantiate c, substitute_idem c defines, substitute_idem c⟩
  · simp only [readOut, lookup_instantiate, Config.value]
    rfl
  · rw [instantiate_eq, defines_eq]
    rfl

/-! ## Placeholders in the unedited template -/

/-- C8: in the template as shipped "Seoul", the value of OWM_CITY, is not a
placeholder text while the values of WIFI_SSID, WIFI_PASS and OWM_API_KEY are.
Hence any check that flags a value exactly when it is a placeholder text
flags exactly these three names on the unedited template, does not flag the
template's OWM_CITY value, and never flags OWM_CITY in a configuration whose
OWM_CITY is still the template's. -/
theorem placeholder_check_misses_city (flag : String → Bool)
    (hflag : ∀ v, flag v = true ↔ v ∈ placeholders) :
    lookup "OWM_CITY" = some "Seoul" ∧ "Seoul" ∉ placeholders ∧
    (∀ n ∈ ["WIFI_SSID", "WIFI_PASS", "OWM_API_KEY"],
      ∃ v, lookup n = some v ∧ v ∈ placeholders) ∧
    flaggedNames flag defines = ["WIFI_SSID", "WIFI_PASS", "OWM_API_KEY"] ∧
    (∀ v, lookup "OWM_CITY" = some v → flag v = false) ∧
    (∀ c : Config, some c.OWM_CITY = lookup "OWM_CITY" →
      "OWM_CITY" ∉ flaggedNames flag (instantiate c)) := by
  have f1 : flag "YOUR_WIFI_NAME" = true := (hflag _).mpr (by decide)
  have f2 : flag "YOUR_WIFI_PASSWORD" = true := (hflag _).mpr (by decide)
  have f3 : flag "YOUR_API_KEY_HERE" = true := (hflag _).mpr (by decide)
  have f4 : flag "Seoul" = false := by
    rw [Bool.eq_false_iff]
    exact fun h => absurd ((hflag _).mp h) (by decide)
  have hseoul : lookup "OWM_CITY" = some "Seoul" := by decide
  refine ⟨hseoul, by decide, by decide, ?_, ?_, ?_⟩
  · rw [defines_eq]
    simp [flaggedNames, List.filter, f1, f2, f3, f4]
  · intro v hv
    rw [hseoul] at hv
    rw [← Option.some.inj hv]
    exact f4
  · intro c hc
    have hcity : c.OWM_CITY = "Seoul" := by
      have h : lookup "OWM_CITY" = some "Seoul" := by decide
      rw [h] at hc
      exact Option.some.inj hc
    rw [instantiate_eq, hcity]
    simp only [flaggedNames, List.mem_map, List.mem_filter, List.mem_cons,
      List.mem_singleton, List.mem_nil_iff, or_false, not_exists, not_and]
    rintro e ⟨(rfl | rfl | rfl | rfl), hf⟩ <;> simp_all

/-- Witness for C8 with the placeholder test of the lint check as the check. -/
theorem placeholder_check_misses_city_witness :
    (∀ v, isPlaceholder v = true ↔ v ∈ placeholders) ∧
    flaggedNames isPlaceholder defines = ["WIFI_SSID", "WIFI_PASS", "OWM_API_KEY"] ∧
    "OWM_CITY" ∉ flaggedNames isPlaceholder
      (instantiate ⟨"home", "", "0123456789abcdef", "Seoul"⟩) :=
  have h := placeholder_check_misses_city isPlaceholder isPlaceholder_iff
  ⟨isPlaceholder_iff, h.2.2.2.1,
    h.2.2.2.2.2 ⟨"home", "", "0123456789abcdef", "Seoul"⟩ (by decide)⟩

/-- C9: the three placeholder values of the template are non-empty and
pairwise distinct, and they are the values of its first three names; the four
values of the template are non-empty and pairwise distinct, so two names that
resolve to the same value are the same name: a value of the unedited template
identifies the name it belongs to. -/
theorem template_values_identify_names :
    (∀ v ∈ placeholders, v ≠ "") ∧ placeholders.Nodup ∧
    (defines.take 3).map Prod.snd = placeholders ∧
    (∀ v ∈ defines.map Prod.snd, v ≠ "") ∧
    (defines.map Prod.snd).Nodup ∧
    (∀ n m v, lookup n = some v → lookup m = some v → n = m) := by
  refine ⟨by decide, by decide, by decide, by decide, by decide, ?_⟩
  intro n m v hn hm
  rw [lookup_eq_some_iff, defines_eq] at hn hm
  simp only [List.mem_cons, Prod.mk.injEq, List.mem_singleton, List.mem_nil_iff,
    or_false] at hn hm
  rcases hn with ⟨rfl, rfl⟩ | ⟨rfl, rfl⟩ | ⟨rfl, rfl⟩ | ⟨rfl, rfl⟩ <;>
    simp at hm <;> exact hm.symm

/-- Witness for C9: the name that resolves to "YOUR_WIFI_PASSWORD", like
WIFI_PASS does, is WIFI_PASS. -/
theorem template_values_identify_names_witness :
    lookup "WIFI_PASS" = some "YOUR_WIFI_PASSWORD" ∧ "WIFI_PASS" = "WIFI_PASS" :=
  ⟨by decide,
    template_values_identify_names.2.2.2.2.2 "WIFI_PASS" "WIFI_PASS" "YOUR_WIFI_PASSWORD"
      (by decide) (by decide)⟩

end DualMonitor
